import Mathlib

/-!
# OTA firmware-update lifecycle coordinator (`main.cpp`)

A shallow embedding of the three functions of `main.cpp` that make up the
firmware-update lifecycle coordinator:

* `prvNetworkDisconnectCallback` (connectivity monitor),
* `App_OTACompleteCallback` (job event handler),
* `run_ota_update_demo` (supervisory loop).

The functions talk to two external libraries (the OTA agent and the MQTT
transport).  Every call into them, every log line and every sleep is recorded
as an `Event` in a chronological trace, tagged with the execution context that
performed it.  Values returned by the external libraries come from an oracle
(`Env`); loops are bounded by a fuel argument and report `Status.running`
when the fuel runs out with control still inside the loop.
-/

namespace OtaDemo

/-! ## Data model -/

/-- Modelled from the spec: the enum `OTA_State_t` of `aws_iot_ota_agent.h`
(not part of the sources), the 11 named agent states of section 3 in their
order. -/
inductive OTA_State_t
  | eOTA_AgentState_Init
  | eOTA_AgentState_Ready
  | eOTA_AgentState_RequestingJob
  | eOTA_AgentState_WaitingForJob
  | eOTA_AgentState_CreatingFile
  | eOTA_AgentState_RequestingFileBlock
  | eOTA_AgentState_WaitingForFileBlock
  | eOTA_AgentState_ClosingFile
  | eOTA_AgentState_Suspended
  | eOTA_AgentState_ShuttingDown
  | eOTA_AgentState_Stopped
  deriving DecidableEq, Repr

open OTA_State_t

/-- Enumerator value of an agent state, used as the index into `_pStateStr`. -/
def OTA_State_t.toNat : OTA_State_t → Nat
  | eOTA_AgentState_Init => 0
  | eOTA_AgentState_Ready => 1
  | eOTA_AgentState_RequestingJob => 2
  | eOTA_AgentState_WaitingForJob => 3
  | eOTA_AgentState_CreatingFile => 4
  | eOTA_AgentState_RequestingFileBlock => 5
  | eOTA_AgentState_WaitingForFileBlock => 6
  | eOTA_AgentState_ClosingFile => 7
  | eOTA_AgentState_Suspended => 8
  | eOTA_AgentState_ShuttingDown => 9
  | eOTA_AgentState_Stopped => 10

/-- Modelled from the spec: `eOTA_AgentState_All`, the number of agent states
(the enumerator after the last state), which sizes `_pStateStr`. -/
def eOTA_AgentState_All : Nat := 11

/-- Modelled from the spec: the enum `OTA_JobEvent_t` (not part of the sources),
the tagged outcome of a terminal update job. -/
inductive OTA_JobEvent_t
  | eOTA_JobEvent_Activate
  | eOTA_JobEvent_Fail
  | eOTA_JobEvent_StartTest
  deriving DecidableEq, Repr

open OTA_JobEvent_t

/-- Modelled from the spec: the result type `OTA_Err_t` of the agent calls (not
part of the sources).  `kOTA_Err_None` is success, `kOTA_Err_Uninitialized` the
initial value used by the handler, `other` any further error code. -/
inductive OTA_Err_t
  | kOTA_Err_None
  | kOTA_Err_Uninitialized
  | other (code : Nat)
  deriving DecidableEq, Repr

open OTA_Err_t

/-- Modelled from the spec: the image states that the handler can report to
`OTA_SetImageState` (the enum is not part of the sources). -/
inductive OTA_ImageState_t
  | eOTA_ImageState_Accepted
  | eOTA_ImageState_Rejected
  deriving DecidableEq, Repr

open OTA_ImageState_t

/-- Modelled from the spec: the enum `IotMqttDisconnectReason_t` (not part of
the sources); `other` stands for every value that is none of the three named
reasons. -/
inductive IotMqttDisconnectReason_t
  | IOT_MQTT_DISCONNECT_CALLED
  | IOT_MQTT_BAD_PACKET_RECEIVED
  | IOT_MQTT_KEEP_ALIVE_TIMEOUT
  | other (raw : Nat)
  deriving DecidableEq, Repr

open IotMqttDisconnectReason_t

/-- The MQTT connection handle `IotMqttConnection_t`, a pointer. -/
abbrev IotMqttConnection_t := Nat

/-- The null pointer; `IOT_MQTT_CONNECTION_INITIALIZER` is `NULL`. -/
def NULL : Nat := 0

/-- The connection context `OTA_ConnectionContext_t` handed to the agent. -/
structure OTA_ConnectionContext_t where
  pxNetworkInterface : Nat
  pvNetworkCredentials : Nat
  pvControlClient : IotMqttConnection_t
  deriving DecidableEq, Repr

/-- The functions of `main.cpp` whose address is taken. -/
inductive FnPtr
  | on_message_received
  | prvNetworkDisconnectCallback
  | App_OTACompleteCallback
  deriving DecidableEq, Repr

/-- The execution contexts: the task running `run_ota_update_demo`, the MQTT
transport context that delivers disconnect notifications, and the OTA agent
task that delivers job events. -/
inductive Thread
  | main
  | mqtt
  | agent
  deriving DecidableEq, Repr

/-- One observable action: a log line, a sleep, or a call into the OTA agent or
the MQTT transport (with the value it returned, where the code uses it). -/
inductive Event
  | tr_info (msg : String)
  | tr_error (msg : String)
  | sleep_for (seconds : Nat)
  | IotMqtt_Disconnect (mqttConnection : IotMqttConnection_t) (flags : Nat)
  | OTA_ActivateNewImage
  | OTA_SetImageState (eState : OTA_ImageState_t) (ret : OTA_Err_t)
  | OTA_GetAgentState (ret : OTA_State_t)
  | OTA_Resume (pxConnection : OTA_ConnectionContext_t)
  | OTA_AgentInit (pvConnectionContext : OTA_ConnectionContext_t) (pucThingName : String)
      (xFunc : FnPtr) (xTicksToWait : Nat)
  | OTA_Suspend (ret : OTA_Err_t)
  | OTA_GetPacketsReceived (ret : Nat)
  | OTA_GetPacketsQueued (ret : Nat)
  | OTA_GetPacketsProcessed (ret : Nat)
  | OTA_GetPacketsDropped (ret : Nat)
  deriving DecidableEq, Repr

open Event

/-- The file-scope variables of `main.cpp` that the coordinator uses, together
with the trace of everything done so far. -/
structure World where
  connection : IotMqttConnection_t
  _networkConnected : Bool
  trace : List (Thread × Event)
  deriving DecidableEq, Repr

/-- The state in which a function is entered: the two globals have the given
values and nothing has been recorded yet. -/
def World.boot (connection : IotMqttConnection_t) (networkConnected : Bool) : World :=
  { connection := connection, _networkConnected := networkConnected, trace := [] }

/-- Record an action of execution context `t`. -/
def emit (t : Thread) (e : Event) (w : World) : World :=
  { w with trace := w.trace ++ [(t, e)] }

/-- The loops of the coordinator. -/
inductive Loop
  | supervisory
  | awaitSuspended
  | fatalHalt
  deriving DecidableEq, Repr

/-- Where control is when a modelled function stops being observed. -/
inductive Status
  | returned
  | running (l : Loop)
  | reset
  deriving DecidableEq, Repr

/-- Outcome of a modelled function: the state it reached and where control is:
`returned` to the caller, still `running` inside the named loop (fuel used up),
or `reset` (control never came back from `OTA_ActivateNewImage`). -/
structure Result where
  world : World
  status : Status
  deriving DecidableEq, Repr

/-! ## Connectivity monitor -/

/-- `prvNetworkDisconnectCallback`: log the reason, then clear the flag. -/
def prvNetworkDisconnectCallback (disconnectReason : IotMqttDisconnectReason_t) (w : World) :
    World :=
  let w :=
    match disconnectReason with
    | IOT_MQTT_DISCONNECT_CALLED =>
      emit Thread.mqtt (tr_info "Mqtt disconnected due to invoking diconnect function.\r\n") w
    | IOT_MQTT_BAD_PACKET_RECEIVED =>
      emit Thread.mqtt
        (tr_info "Mqtt disconnected due to invalid packet received from the network.\r\n") w
    | IOT_MQTT_KEEP_ALIVE_TIMEOUT =>
      emit Thread.mqtt (tr_info "Mqtt disconnected due to Keep-alive response not received.\r\n") w
    | _ => emit Thread.mqtt (tr_info "Mqtt disconnected due to unknown reason.") w
  { w with _networkConnected := false }

/-! ## Job event handler -/

/-- The empty endless loop `for( ; ; ) { }`, read as written: no iteration
changes anything and none leaves the loop. -/
def forever : Nat → World → Result
  | 0, w => { world := w, status := Status.running Loop.fatalHalt }
  | fuel + 1, w => forever fuel w

/-- `App_OTACompleteCallback`, run by the OTA agent task.  `activateReturns`
tells whether `OTA_ActivateNewImage` comes back (it does not when the device
restarts); `setImageStateRet` is what `OTA_SetImageState` answers. -/
def App_OTACompleteCallback (activateReturns : Bool) (setImageStateRet : OTA_Err_t)
    (fuel : Nat) (eEvent : OTA_JobEvent_t) (w : World) : Result :=
  if eEvent = eOTA_JobEvent_Activate then
    let w := emit Thread.agent
      (tr_info "Received eOTA_JobEvent_Activate callback from OTA Agent.\r\n") w
    let w := if w.connection ≠ NULL then
        emit Thread.agent (IotMqtt_Disconnect w.connection 0) w
      else w
    let w := emit Thread.agent OTA_ActivateNewImage w
    if activateReturns then
      let w := emit Thread.agent (tr_error "New image activation failed.\r\n") w
      forever fuel w
    else
      { world := w, status := Status.reset }
  else if eEvent = eOTA_JobEvent_Fail then
    let w := emit Thread.agent
      (tr_info "Received eOTA_JobEvent_Fail callback from OTA Agent.\r\n") w
    { world := w, status := Status.returned }
  else if eEvent = eOTA_JobEvent_StartTest then
    let w := emit Thread.agent
      (tr_info "Received eOTA_JobEvent_StartTest callback from OTA Agent.\r\n") w
    let xErr := setImageStateRet
    let w := emit Thread.agent (OTA_SetImageState eOTA_ImageState_Accepted xErr) w
    let w := if xErr ≠ kOTA_Err_None then
        emit Thread.agent (tr_error " Error! Failed to set image state as accepted.\r\n") w
      else w
    { world := w, status := Status.returned }
  else
    { world := w, status := Status.returned }

/-! ## Supervisory loop -/

/-- The state names of the telemetry line, `_pStateStr[ eOTA_AgentState_All ]`. -/
def _pStateStr : List String :=
  [ "Init",
    "Ready",
    "RequestingJob",
    "WaitingForJob",
    "CreatingFile",
    "RequestingFileBlock",
    "WaitingForFileBlock",
    "ClosingFile",
    "Suspended",
    "ShuttingDown",
    "Stopped" ]

/-- The array access `_pStateStr[ eState ]`; the index is in bounds for each of
the agent states. -/
def stateStr (eState : OTA_State_t) : String :=
  _pStateStr.get ⟨eState.toNat, by cases eState <;> decide⟩

/-- The text produced by the format
`"State: %s  Received: %u   Queued: %u   Processed: %u   Dropped: %u\r\n"`;
the counters are `uint32_t` values printed in decimal. -/
def telemetryLine (state : String) (received queued processed dropped : Nat) : String :=
  "State: " ++ state ++ "  Received: " ++ toString received ++ "   Queued: " ++ toString queued
    ++ "   Processed: " ++ toString processed ++ "   Dropped: " ++ toString dropped ++ "\r\n"

/-- The places of `run_ota_update_demo` at which the MQTT context can run
`prvNetworkDisconnectCallback` in between the coordinator's own steps:
on entry; in the `k`-th evaluation of the loop condition, before the flag is
read; during the `sleep_for(3s)` of tick `k`; between the end of the loop and
the test of the flag that follows it; during the `sleep_for(1s)` of the `j`-th
round of waiting for the suspension. -/
inductive Site
  | entry
  | poll (k : Nat)
  | tick (k : Nat)
  | exit
  | wait (j : Nat)
  deriving DecidableEq, Repr

/-- What the surroundings of one invocation of `run_ota_update_demo` do: the
agent state answered by `OTA_GetAgentState` at the entry, in the `k`-th
evaluation of the loop condition and in the `j`-th evaluation of the waiting
loop's condition; the answer of `OTA_Suspend`; the four packet counters read in
tick `k`; and the disconnect notifications delivered at each site. -/
structure Env where
  stateAtEntry : OTA_State_t
  stateAtPoll : Nat → OTA_State_t
  stateAtWait : Nat → OTA_State_t
  suspendRet : OTA_Err_t
  received : Nat → Nat
  queued : Nat → Nat
  processed : Nat → Nat
  dropped : Nat → Nat
  disconnects : Site → List IotMqttDisconnectReason_t

/-- Build-time configuration that is not part of the sources: the client
identifier macro and the width in bits of `TickType_t`. -/
structure Config where
  MBED_CONF_APP_AWS_CLIENT_IDENTIFIER : String
  tickTypeBits : Nat

/-- The expression `( TickType_t ) ~0`: the `int` value `~0`, which is `-1`,
converted to the unsigned type `TickType_t`. -/
def infiniteTimeout (tickTypeBits : Nat) : Nat :=
  Int.toNat ((-1 : Int) % (2 : Int) ^ tickTypeBits)

/-- The MQTT context runs `prvNetworkDisconnectCallback` once for each
notification of the list, in order. -/
def deliver (reasons : List IotMqttDisconnectReason_t) (w : World) : World :=
  reasons.foldl (fun w r => prvNetworkDisconnectCallback r w) w

/-- The loop `while( ( eState = OTA_GetAgentState() ) != eOTA_AgentState_Stopped
&& _networkConnected )` from its `k`-th evaluation on.  It yields the state
reached and the value of `eState` when the loop is left, or no value when the
fuel is used up first.  The four counter reads of a tick are recorded from
left to right (their order is not fixed by the language, and nothing below
depends on it). -/
def whileConnected (env : Env) : Nat → Nat → World → World × Option OTA_State_t
  | 0, _, w => (w, none)
  | fuel + 1, k, w =>
    let eState := env.stateAtPoll k
    let w := emit Thread.main (OTA_GetAgentState eState) w
    let w := deliver (env.disconnects (Site.poll k)) w
    if eState ≠ eOTA_AgentState_Stopped ∧ w._networkConnected = true then
      let w := emit Thread.main (sleep_for 3) w
      let w := deliver (env.disconnects (Site.tick k)) w
      let w := emit Thread.main (OTA_GetPacketsReceived (env.received k)) w
      let w := emit Thread.main (OTA_GetPacketsQueued (env.queued k)) w
      let w := emit Thread.main (OTA_GetPacketsProcessed (env.processed k)) w
      let w := emit Thread.main (OTA_GetPacketsDropped (env.dropped k)) w
      let w := emit Thread.main
        (tr_info (telemetryLine (stateStr eState) (env.received k) (env.queued k)
          (env.processed k) (env.dropped k))) w
      whileConnected env fuel (k + 1) w
    else
      (w, some eState)

/-- The loop `while( ( eState = OTA_GetAgentState() ) != eOTA_AgentState_Suspended )`
from its `j`-th evaluation on. -/
def awaitSuspended (env : Env) : Nat → Nat → World → Result
  | 0, _, w => { world := w, status := Status.running Loop.awaitSuspended }
  | fuel + 1, j, w =>
    let eState := env.stateAtWait j
    let w := emit Thread.main (OTA_GetAgentState eState) w
    if eState ≠ eOTA_AgentState_Suspended then
      let w := emit Thread.main (sleep_for 1) w
      let w := deliver (env.disconnects (Site.wait j)) w
      awaitSuspended env fuel (j + 1) w
    else
      { world := w, status := Status.returned }

/-- `run_ota_update_demo`.  Each of its two loops may run for at most `fuel`
rounds. -/
def run_ota_update_demo (cfg : Config) (env : Env)
    (pNetworkServerInfo pNetworkCredentialInfo pNetworkInterface : Nat)
    (fuel : Nat) (w : World) : Result :=
  let w := deliver (env.disconnects Site.entry) w
  let xOTAConnectionCtx : OTA_ConnectionContext_t :=
    { pxNetworkInterface := pNetworkInterface,
      pvNetworkCredentials := pNetworkCredentialInfo,
      pvControlClient := w.connection }
  let eState := env.stateAtEntry
  let w := emit Thread.main (OTA_GetAgentState eState) w
  let w := if eState = eOTA_AgentState_Suspended then
      emit Thread.main (OTA_Resume xOTAConnectionCtx) w
    else w
  let w := emit Thread.main
    (OTA_AgentInit xOTAConnectionCtx cfg.MBED_CONF_APP_AWS_CLIENT_IDENTIFIER
      FnPtr.App_OTACompleteCallback (infiniteTimeout cfg.tickTypeBits)) w
  match whileConnected env fuel 0 w with
  | (w, none) => { world := w, status := Status.running Loop.supervisory }
  | (w, some _) =>
    let w := deliver (env.disconnects Site.exit) w
    if w._networkConnected = false then
      let w := emit Thread.main (OTA_Suspend env.suspendRet) w
      if env.suspendRet = kOTA_Err_None then
        awaitSuspended env fuel 0 w
      else
        { world := w, status := Status.returned }
    else
      let w := if w.connection ≠ NULL then
          emit Thread.main (IotMqtt_Disconnect w.connection 0) w
        else w
      { world := w, status := Status.returned }

/-! ## Observations on traces -/

/-- The actions of execution context `t`, in order. -/
def callsOf (t : Thread) (w : World) : List Event :=
  w.trace.filterMap (fun p => if p.1 = t then some p.2 else none)

/-- Calls into the OTA agent or the MQTT transport (everything but log lines
and sleeps). -/
def Event.isApiCall : Event → Bool
  | tr_info _ => false
  | tr_error _ => false
  | sleep_for _ => false
  | _ => true

/-- The calls into the OTA agent or the MQTT transport among `tr`. -/
def apiCalls (tr : List Event) : List Event := tr.filter Event.isApiCall

/-- Recogniser of `IotMqtt_Disconnect` calls. -/
def Event.isDisconnect : Event → Bool
  | IotMqtt_Disconnect _ _ => true
  | _ => false

/-- Recogniser of `OTA_Suspend` calls. -/
def Event.isSuspend : Event → Bool
  | OTA_Suspend _ => true
  | _ => false

/-- Recogniser of `OTA_Resume` calls. -/
def Event.isResume : Event → Bool
  | OTA_Resume _ => true
  | _ => false

/-- Recogniser of `OTA_AgentInit` calls. -/
def Event.isInit : Event → Bool
  | OTA_AgentInit _ _ _ _ => true
  | _ => false

/-- Recogniser of error log lines. -/
def Event.isError : Event → Bool
  | tr_error _ => true
  | _ => false

/-- The informational log lines among `tr`, in order. -/
def infoLines (tr : List Event) : List String :=
  tr.filterMap (fun e => match e with
    | tr_info msg => some msg
    | _ => none)

/-- Recogniser of the `sleep_for(3s)` that starts a tick of the supervisory
loop. -/
def Event.isTick : Event → Bool
  | sleep_for s => decide (s = 3)
  | _ => false

/-- The number of ticks of the supervisory loop in `tr`. -/
def ticks (tr : List Event) : Nat := tr.countP Event.isTick

/-- The agent state most recently observed in `tr` (the last value returned by
`OTA_GetAgentState`), starting from `last`. -/
def lastObserved (last : Option OTA_State_t) : List Event → Option OTA_State_t
  | [] => last
  | OTA_GetAgentState s :: tr => lastObserved (some s) tr
  | _ :: tr => lastObserved last tr

/-- Whether `tr` has an `OTA_Suspend` call made while the agent state most
recently observed is `Suspended`. -/
def suspendsWhileSuspended (last : Option OTA_State_t) : List Event → Bool
  | [] => false
  | OTA_GetAgentState s :: tr => suspendsWhileSuspended (some s) tr
  | OTA_Suspend _ :: tr =>
    decide (last = some eOTA_AgentState_Suspended) || suspendsWhileSuspended last tr
  | _ :: tr => suspendsWhileSuspended last tr

/-- Whether `tr` has an `OTA_Resume` call made while the agent state most
recently observed is not `Suspended`. -/
def resumesWhileNotSuspended (last : Option OTA_State_t) : List Event → Bool
  | [] => false
  | OTA_GetAgentState s :: tr => resumesWhileNotSuspended (some s) tr
  | OTA_Resume _ :: tr =>
    decide (last ≠ some eOTA_AgentState_Suspended) || resumesWhileNotSuspended last tr
  | _ :: tr => resumesWhileNotSuspended last tr

/-- The events of `m` successive rounds of the waiting loop, from round `j` on,
none of which ends the loop: the state query followed by `sleep_for(1s)`. -/
def waitRounds (env : Env) : Nat → Nat → List Event
  | _, 0 => []
  | j, m + 1 => [OTA_GetAgentState (env.stateAtWait j), sleep_for 1] ++ waitRounds env (j + 1) m

/-- The events after the first `OTA_Suspend` call of `tr`. -/
def afterSuspend (tr : List Event) : List Event :=
  (tr.dropWhile (fun e => !e.isSuspend)).tail

/-- The telemetry line of tick `k`. -/
def tickLine (env : Env) (k : Nat) : String :=
  telemetryLine (stateStr (env.stateAtPoll k)) (env.received k) (env.queued k)
    (env.processed k) (env.dropped k)

/-- The coordinator's own events of tick `k`, including the state query of the
loop condition that lets the tick start. -/
def tickEvents (env : Env) (k : Nat) : List Event :=
  [ OTA_GetAgentState (env.stateAtPoll k), sleep_for 3,
    OTA_GetPacketsReceived (env.received k), OTA_GetPacketsQueued (env.queued k),
    OTA_GetPacketsProcessed (env.processed k), OTA_GetPacketsDropped (env.dropped k),
    tr_info (tickLine env k) ]

/-- The coordinator's own events of `n` successive ticks, from tick `k` on. -/
def ticksFrom (env : Env) : Nat → Nat → List Event
  | _, 0 => []
  | k, n + 1 => tickEvents env k ++ ticksFrom env (k + 1) n

/-- The telemetry line in the shape the specification gives for it:
`State: <AgentStateName>  Received: <n>  Queued: <n>  Processed: <n>  Dropped: <n>`. -/
def specTelemetryLine (state : String) (received queued processed dropped : Nat) : String :=
  "State: " ++ state ++ "  Received: " ++ toString received ++ "  Queued: " ++ toString queued
    ++ "  Processed: " ++ toString processed ++ "  Dropped: " ++ toString dropped

/-! ## Names for intermediate states -/

/-- The state after the `k`-th evaluation of the loop condition (state query
and the notifications delivered before the flag is read). -/
def pollWorld (env : Env) (k : Nat) (w : World) : World :=
  deliver (env.disconnects (Site.poll k))
    (emit Thread.main (OTA_GetAgentState (env.stateAtPoll k)) w)

/-- The state after tick `k`, entered from `w`. -/
def tickWorld (env : Env) (k : Nat) (w : World) : World :=
  emit Thread.main (tr_info (tickLine env k))
    (emit Thread.main (OTA_GetPacketsDropped (env.dropped k))
      (emit Thread.main (OTA_GetPacketsProcessed (env.processed k))
        (emit Thread.main (OTA_GetPacketsQueued (env.queued k))
          (emit Thread.main (OTA_GetPacketsReceived (env.received k))
            (deliver (env.disconnects (Site.tick k))
              (emit Thread.main (sleep_for 3) (pollWorld env k w)))))))

/-- The state after round `j` of the waiting loop, entered from `w`, when the
round does not end the loop. -/
def waitWorld (env : Env) (j : Nat) (w : World) : World :=
  deliver (env.disconnects (Site.wait j))
    (emit Thread.main (sleep_for 1)
      (emit Thread.main (OTA_GetAgentState (env.stateAtWait j)) w))

/-- The state query of the loop condition that ends the supervisory loop, when
the loop has ended with `eState = s`. -/
def exitEvents : Option OTA_State_t → List Event
  | none => []
  | some s => [OTA_GetAgentState s]

/-- The coordinator's events before the supervisory loop. -/
def entryEvents (cfg : Config) (env : Env) (ctx : OTA_ConnectionContext_t) : List Event :=
  [OTA_GetAgentState env.stateAtEntry]
    ++ (if env.stateAtEntry = eOTA_AgentState_Suspended then [OTA_Resume ctx] else [])
    ++ [OTA_AgentInit ctx cfg.MBED_CONF_APP_AWS_CLIENT_IDENTIFIER
          FnPtr.App_OTACompleteCallback (infiniteTimeout cfg.tickTypeBits)]

/-- The state in which the supervisory loop is entered. -/
def entryWorld (cfg : Config) (env : Env) (pNetworkCredentialInfo pNetworkInterface : Nat)
    (w : World) : World :=
  let w := deliver (env.disconnects Site.entry) w
  let xOTAConnectionCtx : OTA_ConnectionContext_t :=
    { pxNetworkInterface := pNetworkInterface,
      pvNetworkCredentials := pNetworkCredentialInfo,
      pvControlClient := w.connection }
  let w := emit Thread.main (OTA_GetAgentState env.stateAtEntry) w
  let w := if env.stateAtEntry = eOTA_AgentState_Suspended then
      emit Thread.main (OTA_Resume xOTAConnectionCtx) w
    else w
  emit Thread.main
    (OTA_AgentInit xOTAConnectionCtx cfg.MBED_CONF_APP_AWS_CLIENT_IDENTIFIER
      FnPtr.App_OTACompleteCallback (infiniteTimeout cfg.tickTypeBits)) w

/-- The part of `run_ota_update_demo` after the supervisory loop, entered from
`w`. -/
def exitPhase (env : Env) (fuel : Nat) (w : World) : Result :=
  let w := deliver (env.disconnects Site.exit) w
  if w._networkConnected = false then
    let w := emit Thread.main (OTA_Suspend env.suspendRet) w
    if env.suspendRet = kOTA_Err_None then
      awaitSuspended env fuel 0 w
    else
      { world := w, status := Status.returned }
  else
    let w := if w.connection ≠ NULL then
        emit Thread.main (IotMqtt_Disconnect w.connection 0) w
      else w
    { world := w, status := Status.returned }

/-- The value of `_networkConnected` that the test `if( _networkConnected ==
false )` after the supervisory loop reads, in the invocation with the given
arguments: the flag of the state in which the loop was left, after the
notifications delivered between the end of the loop and the test. -/
def flagAtTest (cfg : Config) (env : Env) (pNetworkCredentialInfo pNetworkInterface fuel : Nat)
    (connection : IotMqttConnection_t) (networkConnected : Bool) : Bool :=
  (deliver (env.disconnects Site.exit)
    (whileConnected env fuel 0
      (entryWorld cfg env pNetworkCredentialInfo pNetworkInterface
        (World.boot connection networkConnected))).1)._networkConnected

/-- Witness environment: the agent is `Stopped` at the first evaluation of the
loop condition, and a keep-alive timeout is notified between the end of the
loop and the test of the flag that follows it. -/
def envStoppedThenDrop : Env :=
  { stateAtEntry := eOTA_AgentState_Init,
    stateAtPoll := fun _ => eOTA_AgentState_Stopped,
    stateAtWait := fun _ => eOTA_AgentState_Suspended,
    suspendRet := kOTA_Err_None,
    received := fun _ => 0,
    queued := fun _ => 0,
    processed := fun _ => 0,
    dropped := fun _ => 0,
    disconnects := fun s => if s = Site.exit then [IOT_MQTT_KEEP_ALIVE_TIMEOUT] else [] }

/-- Witness environment: the agent stays in `Init`, the MQTT context reports a
keep-alive timeout during tick `1`, and the suspension is acknowledged on the
third state query of the waiting loop. -/
def envKeepAlive : Env :=
  { stateAtEntry := eOTA_AgentState_Init,
    stateAtPoll := fun _ => eOTA_AgentState_Init,
    stateAtWait := fun j => if j < 2 then eOTA_AgentState_Ready else eOTA_AgentState_Suspended,
    suspendRet := kOTA_Err_None,
    received := fun k => k + 1,
    queued := fun _ => 2,
    processed := fun _ => 3,
    dropped := fun _ => 4,
    disconnects := fun s => if s = Site.tick 1 then [IOT_MQTT_KEEP_ALIVE_TIMEOUT] else [] }

/-- Witness environment: the agent reports `Suspended` on every query and a
keep-alive timeout is notified during tick `0`. -/
def envSuspendedDrop : Env :=
  { stateAtEntry := eOTA_AgentState_Suspended,
    stateAtPoll := fun _ => eOTA_AgentState_Suspended,
    stateAtWait := fun _ => eOTA_AgentState_Suspended,
    suspendRet := kOTA_Err_None,
    received := fun _ => 0,
    queued := fun _ => 0,
    processed := fun _ => 0,
    dropped := fun _ => 0,
    disconnects := fun s => if s = Site.tick 0 then [IOT_MQTT_KEEP_ALIVE_TIMEOUT] else [] }

/-- Witness environment: the agent reports `Suspended` on every query and no
notification arrives. -/
def envSuspended : Env :=
  { stateAtEntry := eOTA_AgentState_Suspended,
    stateAtPoll := fun _ => eOTA_AgentState_Suspended,
    stateAtWait := fun _ => eOTA_AgentState_Suspended,
    suspendRet := kOTA_Err_None,
    received := fun _ => 0,
    queued := fun _ => 0,
    processed := fun _ => 0,
    dropped := fun _ => 0,
    disconnects := fun _ => [] }

/-- Witness environment: the agent is in `Init` for two ticks and is then
`Stopped`; no notification arrives. -/
def envStopped : Env :=
  { stateAtEntry := eOTA_AgentState_Init,
    stateAtPoll := fun k => if k < 2 then eOTA_AgentState_Init else eOTA_AgentState_Stopped,
    stateAtWait := fun _ => eOTA_AgentState_Suspended,
    suspendRet := kOTA_Err_None,
    received := fun k => k + 1,
    queued := fun _ => 2,
    processed := fun _ => 3,
    dropped := fun _ => 4,
    disconnects := fun _ => [] }

/-- Witness configuration: a client identifier and a 32-bit `TickType_t`. -/
def cfgDemo : Config :=
  { MBED_CONF_APP_AWS_CLIENT_IDENTIFIER := "thing", tickTypeBits := 32 }

/-! ## Basic facts about traces -/

@[simp] theorem emit_connection (t : Thread) (e : Event) (w : World) :
    (emit t e w).connection = w.connection := rfl

@[simp] theorem emit_networkConnected (t : Thread) (e : Event) (w : World) :
    (emit t e w)._networkConnected = w._networkConnected := rfl

@[simp] theorem callsOf_emit_self (t : Thread) (e : Event) (w : World) :
    callsOf t (emit t e w) = callsOf t w ++ [e] := by
  simp [callsOf, emit, List.filterMap_append]

theorem callsOf_emit_of_ne {t u : Thread} (h : u ≠ t) (e : Event) (w : World) :
    callsOf t (emit u e w) = callsOf t w := by
  simp [callsOf, emit, List.filterMap_append, h]

@[simp] theorem callsOf_boot (t : Thread) (conn : IotMqttConnection_t) (flag : Bool) :
    callsOf t (World.boot conn flag) = [] := rfl

@[simp] theorem boot_connection (conn : IotMqttConnection_t) (flag : Bool) :
    (World.boot conn flag).connection = conn := rfl

@[simp] theorem boot_networkConnected (conn : IotMqttConnection_t) (flag : Bool) :
    (World.boot conn flag)._networkConnected = flag := rfl

theorem forever_eq (fuel : Nat) (w : World) :
    forever fuel w = { world := w, status := Status.running Loop.fatalHalt } := by
  induction fuel with
  | zero => rfl
  | succ n ih => simpa [forever] using ih

/-! ## Connectivity monitor -/

theorem callback_networkConnected (r : IotMqttDisconnectReason_t) (w : World) :
    (prvNetworkDisconnectCallback r w)._networkConnected = false := by
  cases r <;> rfl

theorem callback_connection (r : IotMqttDisconnectReason_t) (w : World) :
    (prvNetworkDisconnectCallback r w).connection = w.connection := by
  cases r <;> rfl

theorem callback_callsOf_main (r : IotMqttDisconnectReason_t) (w : World) :
    callsOf Thread.main (prvNetworkDisconnectCallback r w) = callsOf Thread.main w := by
  cases r <;> simp [prvNetworkDisconnectCallback, callsOf, emit, List.filterMap_append]

@[simp] theorem deliver_connection (rs : List IotMqttDisconnectReason_t) (w : World) :
    (deliver rs w).connection = w.connection := by
  induction rs generalizing w with
  | nil => rfl
  | cons r rs ih => simp [deliver, List.foldl] at ih ⊢; rw [ih, callback_connection]

@[simp] theorem deliver_callsOf_main (rs : List IotMqttDisconnectReason_t) (w : World) :
    callsOf Thread.main (deliver rs w) = callsOf Thread.main w := by
  induction rs generalizing w with
  | nil => rfl
  | cons r rs ih => simp [deliver, List.foldl] at ih ⊢; rw [ih, callback_callsOf_main]

@[simp] theorem deliver_nil (w : World) : deliver [] w = w := rfl

theorem deliver_of_disconnected (rs : List IotMqttDisconnectReason_t) (w : World)
    (h : w._networkConnected = false) : (deliver rs w)._networkConnected = false := by
  induction rs generalizing w with
  | nil => exact h
  | cons r rs ih =>
    simp only [deliver, List.foldl] at ih ⊢
    exact ih _ (callback_networkConnected r w)

theorem deliver_cons_networkConnected (r : IotMqttDisconnectReason_t)
    (rs : List IotMqttDisconnectReason_t) (w : World) :
    (deliver (r :: rs) w)._networkConnected = false := by
  simp only [deliver, List.foldl]
  exact deliver_of_disconnected rs _ (callback_networkConnected r w)

theorem deliver_of_ne_nil {rs : List IotMqttDisconnectReason_t} (h : rs ≠ []) (w : World) :
    (deliver rs w)._networkConnected = false := by
  cases rs with
  | nil => exact absurd rfl h
  | cons r rs => exact deliver_cons_networkConnected r rs w

theorem deliver_connected {rs : List IotMqttDisconnectReason_t} {w : World}
    (h : (deliver rs w)._networkConnected = true) : w._networkConnected = true := by
  cases hw : w._networkConnected with
  | true => rfl
  | false => rw [deliver_of_disconnected rs w hw] at h; exact absurd h (by decide)

/-- C8: for every disconnect reason and every prior state, the callback
`prvNetworkDisconnectCallback` leaves the connectivity flag false, leaves the
connection handle alone, and appends to the trace exactly one event, the
informational log line of the reason (every unrecognised reason gets the
"unknown reason" line), so it makes no call into the agent or the transport;
after any non-empty sequence of notifications the flag is false, and a repeated
notification leaves the flag unchanged. -/
theorem disconnect_callback_clears_flag (w : World) :
    (∀ r, (prvNetworkDisconnectCallback r w)._networkConnected = false
      ∧ (prvNetworkDisconnectCallback r w).connection = w.connection) ∧
    (prvNetworkDisconnectCallback IOT_MQTT_DISCONNECT_CALLED w).trace = w.trace ++
      [(Thread.mqtt, tr_info "Mqtt disconnected due to invoking diconnect function.\r\n")] ∧
    (prvNetworkDisconnectCallback IOT_MQTT_BAD_PACKET_RECEIVED w).trace = w.trace ++
      [(Thread.mqtt,
        tr_info "Mqtt disconnected due to invalid packet received from the network.\r\n")] ∧
    (prvNetworkDisconnectCallback IOT_MQTT_KEEP_ALIVE_TIMEOUT w).trace = w.trace ++
      [(Thread.mqtt, tr_info "Mqtt disconnected due to Keep-alive response not received.\r\n")] ∧
    (∀ raw, (prvNetworkDisconnectCallback (IotMqttDisconnectReason_t.other raw) w).trace =
      w.trace ++ [(Thread.mqtt, tr_info "Mqtt disconnected due to unknown reason.")]) ∧
    (∀ r rs, (deliver (r :: rs) w)._networkConnected = false) ∧
    (∀ r₁ r₂, (prvNetworkDisconnectCallback r₂ (prvNetworkDisconnectCallback r₁ w))._networkConnected
      = (prvNetworkDisconnectCallback r₁ w)._networkConnected) := by
  refine ⟨fun r => ⟨callback_networkConnected r w, callback_connection r w⟩, rfl, rfl, rfl,
    fun _ => rfl, fun r rs => deliver_cons_networkConnected r rs w, fun r₁ r₂ => ?_⟩
  rw [callback_networkConnected, callback_networkConnected]

/-! ## Job event handler -/

/-- C1 (as amended): for the Activate event the handler's calls into the
transport and the agent are, in order, one `IotMqtt_Disconnect` on the
connection when the handle is not `NULL` (none when it is `NULL`), then exactly
one `OTA_ActivateNewImage`; this holds whether or not the activation returns. -/
theorem activate_calls (activateReturns : Bool) (setImageStateRet : OTA_Err_t) (fuel : Nat)
    (conn : IotMqttConnection_t) (flag : Bool) :
    apiCalls (callsOf Thread.agent (App_OTACompleteCallback activateReturns setImageStateRet fuel
        eOTA_JobEvent_Activate (World.boot conn flag)).world)
      = (if conn ≠ NULL then [IotMqtt_Disconnect conn 0] else []) ++ [OTA_ActivateNewImage] := by
  by_cases hc : conn = NULL <;> cases activateReturns <;>
    simp [App_OTACompleteCallback, forever_eq, hc, apiCalls, Event.isApiCall]

/-- C1 (counterexample): with the connection handle unset (`NULL`) the Activate
event leads to no `IotMqtt_Disconnect` call at all; `OTA_ActivateNewImage` is
the only call. -/
theorem activate_null_handle_no_disconnect :
    (callsOf Thread.agent (App_OTACompleteCallback true kOTA_Err_None 0
        eOTA_JobEvent_Activate (World.boot NULL true)).world).countP Event.isDisconnect = 0
    ∧ apiCalls (callsOf Thread.agent (App_OTACompleteCallback true kOTA_Err_None 0
        eOTA_JobEvent_Activate (World.boot NULL true)).world) = [OTA_ActivateNewImage] := by
  decide

/-- C2: when `OTA_ActivateNewImage` returns, the handler logs exactly one error
and then stays in its endless loop: for every amount of fuel the status is
"running in the halt loop" (never `returned`), and the handler's trace ends
with `OTA_ActivateNewImage` followed by the error line and nothing else, so no
further call into the agent or the transport is made. -/
theorem activate_returns_halts (setImageStateRet : OTA_Err_t) (fuel : Nat)
    (conn : IotMqttConnection_t) (flag : Bool) :
    (App_OTACompleteCallback true setImageStateRet fuel eOTA_JobEvent_Activate
        (World.boot conn flag)).status = Status.running Loop.fatalHalt ∧
    callsOf Thread.agent (App_OTACompleteCallback true setImageStateRet fuel
        eOTA_JobEvent_Activate (World.boot conn flag)).world
      = [tr_info "Received eOTA_JobEvent_Activate callback from OTA Agent.\r\n"]
        ++ (if conn ≠ NULL then [IotMqtt_Disconnect conn 0] else [])
        ++ [OTA_ActivateNewImage, tr_error "New image activation failed.\r\n"] ∧
    (callsOf Thread.agent (App_OTACompleteCallback true setImageStateRet fuel
        eOTA_JobEvent_Activate (World.boot conn flag)).world).countP Event.isError = 1 := by
  by_cases hc : conn = NULL <;>
    simp [App_OTACompleteCallback, forever_eq, hc, Event.isError]

/-- C3: for the StartTest event the handler calls `OTA_SetImageState` exactly
once, with `Accepted`, and makes no other call into the agent or the transport;
it logs one error when the call's result is not success and none when it is,
and it returns to its caller in both cases. -/
theorem start_test_accepts (activateReturns : Bool) (setImageStateRet : OTA_Err_t) (fuel : Nat)
    (conn : IotMqttConnection_t) (flag : Bool) :
    (App_OTACompleteCallback activateReturns setImageStateRet fuel eOTA_JobEvent_StartTest
        (World.boot conn flag)).status = Status.returned ∧
    apiCalls (callsOf Thread.agent (App_OTACompleteCallback activateReturns setImageStateRet fuel
        eOTA_JobEvent_StartTest (World.boot conn flag)).world)
      = [OTA_SetImageState eOTA_ImageState_Accepted setImageStateRet] ∧
    (callsOf Thread.agent (App_OTACompleteCallback activateReturns setImageStateRet fuel
        eOTA_JobEvent_StartTest (World.boot conn flag)).world).filter Event.isError
      = (if setImageStateRet ≠ kOTA_Err_None then
          [tr_error " Error! Failed to set image state as accepted.\r\n"] else []) := by
  by_cases hr : setImageStateRet = kOTA_Err_None <;>
    simp [App_OTACompleteCallback, hr, apiCalls, Event.isApiCall, Event.isError]

/-- C9: for the Fail event the handler only writes its informational log line:
it makes no call into the agent or the transport, leaves the connectivity flag
and the connection handle as they were, and returns to its caller. -/
theorem fail_event_no_action (activateReturns : Bool) (setImageStateRet : OTA_Err_t) (fuel : Nat)
    (conn : IotMqttConnection_t) (flag : Bool) :
    App_OTACompleteCallback activateReturns setImageStateRet fuel eOTA_JobEvent_Fail
        (World.boot conn flag)
      = { world := { connection := conn, _networkConnected := flag,
                     trace := [(Thread.agent,
                       tr_info "Received eOTA_JobEvent_Fail callback from OTA Agent.\r\n")] },
          status := Status.returned } ∧
    apiCalls (callsOf Thread.agent (App_OTACompleteCallback activateReturns setImageStateRet fuel
        eOTA_JobEvent_Fail (World.boot conn flag)).world) = [] := by
  simp [App_OTACompleteCallback, World.boot, emit, apiCalls, callsOf, Event.isApiCall]

/-! ## Supervisory loop: unfolding -/

theorem whileConnected_zero (env : Env) (k : Nat) (w : World) :
    whileConnected env 0 k w = (w, none) := rfl

theorem whileConnected_succ (env : Env) (fuel k : Nat) (w : World) :
    whileConnected env (fuel + 1) k w =
      if env.stateAtPoll k ≠ eOTA_AgentState_Stopped ∧ (pollWorld env k w)._networkConnected = true
      then whileConnected env fuel (k + 1) (tickWorld env k w)
      else (pollWorld env k w, some (env.stateAtPoll k)) := rfl

theorem run_ota_update_demo_eq (cfg : Config) (env : Env) (a b c fuel : Nat) (w : World) :
    run_ota_update_demo cfg env a b c fuel w =
      match whileConnected env fuel 0 (entryWorld cfg env b c w) with
      | (w, none) => { world := w, status := Status.running Loop.supervisory }
      | (w, some _) => exitPhase env fuel w := rfl

@[simp] theorem pollWorld_callsOf (env : Env) (k : Nat) (w : World) :
    callsOf Thread.main (pollWorld env k w)
      = callsOf Thread.main w ++ [OTA_GetAgentState (env.stateAtPoll k)] := by
  simp [pollWorld]

@[simp] theorem pollWorld_connection (env : Env) (k : Nat) (w : World) :
    (pollWorld env k w).connection = w.connection := by
  simp [pollWorld]

theorem pollWorld_of_disconnected (env : Env) (k : Nat) (w : World)
    (h : w._networkConnected = false) : (pollWorld env k w)._networkConnected = false :=
  deliver_of_disconnected _ _ h

@[simp] theorem tickWorld_callsOf (env : Env) (k : Nat) (w : World) :
    callsOf Thread.main (tickWorld env k w) = callsOf Thread.main w ++ tickEvents env k := by
  simp [tickWorld, tickEvents]

@[simp] theorem tickWorld_connection (env : Env) (k : Nat) (w : World) :
    (tickWorld env k w).connection = w.connection := by
  simp [tickWorld]

theorem tickWorld_of_notified (env : Env) (k : Nat) (w : World)
    (h : env.disconnects (Site.tick k) ≠ []) : (tickWorld env k w)._networkConnected = false := by
  simp only [tickWorld, emit_networkConnected]
  exact deliver_of_ne_nil h _

theorem tickWorld_connected (env : Env) (k : Nat) (w : World)
    (h : (tickWorld env k w)._networkConnected = true) :
    (pollWorld env k w)._networkConnected = true := by
  simp only [tickWorld, emit_networkConnected] at h
  simpa using deliver_connected h

theorem entryWorld_callsOf (cfg : Config) (env : Env) (b c : Nat) (w : World) :
    callsOf Thread.main (entryWorld cfg env b c w)
      = callsOf Thread.main w ++ entryEvents cfg env ⟨c, b, w.connection⟩ := by
  by_cases h : env.stateAtEntry = eOTA_AgentState_Suspended <;>
    simp [entryWorld, entryEvents, h]

@[simp] theorem entryWorld_connection (cfg : Config) (env : Env) (b c : Nat) (w : World) :
    (entryWorld cfg env b c w).connection = w.connection := by
  by_cases h : env.stateAtEntry = eOTA_AgentState_Suspended <;> simp [entryWorld, h]

/-! ## Supervisory loop: what it does -/

theorem ticks_append (l₁ l₂ : List Event) : ticks (l₁ ++ l₂) = ticks l₁ + ticks l₂ := by
  simp [ticks, List.countP_append]

theorem ticks_tickEvents (env : Env) (k : Nat) : ticks (tickEvents env k) = 1 := by
  simp [ticks, tickEvents, Event.isTick, List.countP_cons]

theorem ticks_ticksFrom (env : Env) (k n : Nat) : ticks (ticksFrom env k n) = n := by
  induction n generalizing k with
  | zero => rfl
  | succ n ih => rw [ticksFrom, ticks_append, ticks_tickEvents, ih]; omega

theorem ticks_exitEvents (o : Option OTA_State_t) : ticks (exitEvents o) = 0 := by
  cases o <;> simp [ticks, exitEvents, Event.isTick, List.countP_cons]

theorem whileConnected_trace (env : Env) : ∀ (fuel k : Nat) (w : World), ∃ n, n ≤ fuel ∧
    callsOf Thread.main (whileConnected env fuel k w).1
      = callsOf Thread.main w ++ ticksFrom env k n ++ exitEvents (whileConnected env fuel k w).2 ∧
    (whileConnected env fuel k w).1.connection = w.connection ∧
    ((whileConnected env fuel k w).2 = none → n = fuel) ∧
    (∀ s, (whileConnected env fuel k w).2 = some s →
        s = env.stateAtPoll (k + n) ∧ n < fuel ∧
        (s = eOTA_AgentState_Stopped ∨ (whileConnected env fuel k w).1._networkConnected = false)) := by
  intro fuel
  induction fuel with
  | zero =>
    intro k w
    exact ⟨0, le_refl _, by simp [whileConnected_zero, ticksFrom, exitEvents], rfl, fun _ => rfl,
      fun s h => by simp [whileConnected_zero] at h⟩
  | succ fuel ih =>
    intro k w
    rw [whileConnected_succ]
    split
    · obtain ⟨n, hn, htr, hconn, hnone, hsome⟩ := ih (k + 1) (tickWorld env k w)
      refine ⟨n + 1, by omega, ?_, ?_, ?_, ?_⟩
      · rw [htr]; simp [ticksFrom]
      · rw [hconn]; simp
      · intro h; rw [hnone h]
      · intro s h
        obtain ⟨h1, h2, h3⟩ := hsome s h
        refine ⟨?_, by omega, h3⟩
        rw [h1]; congr 1; omega
    · next hc =>
      refine ⟨0, by omega, by simp [ticksFrom, exitEvents], by simp, fun h => by simp at h,
        fun s h => ?_⟩
      simp only [Option.some.injEq] at h
      subst h
      refine ⟨rfl, by omega, ?_⟩
      by_cases hs : env.stateAtPoll k = eOTA_AgentState_Stopped
      · exact Or.inl hs
      · right
        simpa [hs] using hc

theorem whileConnected_add (env : Env) : ∀ (f₁ f₂ k : Nat) (w : World),
    whileConnected env (f₁ + f₂) k w =
      if (whileConnected env f₁ k w).2 = none
      then whileConnected env f₂ (k + f₁) (whileConnected env f₁ k w).1
      else whileConnected env f₁ k w := by
  intro f₁
  induction f₁ with
  | zero => intro f₂ k w; simp [whileConnected_zero]
  | succ f₁ ih =>
    intro f₂ k w
    have e : f₁ + 1 + f₂ = (f₁ + f₂) + 1 := by omega
    rw [e, whileConnected_succ, whileConnected_succ]
    split
    · rw [ih]
      have e2 : k + 1 + f₁ = k + (f₁ + 1) := by omega
      rw [e2]
    · simp

theorem whileConnected_stable (env : Env) (fuel fuel' k : Nat) (w : World) (s : OTA_State_t)
    (h : (whileConnected env fuel k w).2 = some s) (hle : fuel ≤ fuel') :
    whileConnected env fuel' k w = whileConnected env fuel k w := by
  obtain ⟨d, rfl⟩ := Nat.exists_eq_add_of_le hle
  rw [whileConnected_add]
  simp [h]

theorem whileConnected_ticks_mono (env : Env) (fuel fuel' k : Nat) (w : World)
    (hle : fuel ≤ fuel') :
    ticks (callsOf Thread.main (whileConnected env fuel k w).1)
      ≤ ticks (callsOf Thread.main (whileConnected env fuel' k w).1) := by
  obtain ⟨d, rfl⟩ := Nat.exists_eq_add_of_le hle
  rw [whileConnected_add]
  split
  · obtain ⟨n, -, htr, -⟩ := whileConnected_trace env d (k + fuel) (whileConnected env fuel k w).1
    rw [htr, ticks_append, ticks_append]
    omega
  · exact le_refl _

theorem whileConnected_of_disconnected (env : Env) (fuel k : Nat) (w : World)
    (h : w._networkConnected = false) :
    ticks (callsOf Thread.main (whileConnected env fuel k w).1) = ticks (callsOf Thread.main w) ∧
    (1 ≤ fuel → (whileConnected env fuel k w).2 ≠ none) ∧
    (whileConnected env fuel k w).1._networkConnected = false := by
  cases fuel with
  | zero => exact ⟨rfl, fun h => absurd h (by omega), h⟩
  | succ fuel =>
    rw [whileConnected_succ]
    have hp := pollWorld_of_disconnected env k w h
    simp [hp, ticks_append, ticks, Event.isTick]

theorem whileConnected_notified (env : Env) : ∀ (fuel k : Nat) (w : World) (i : Nat), k ≤ i →
    env.disconnects (Site.tick i) ≠ [] →
    ticks (callsOf Thread.main (whileConnected env fuel k w).1)
      ≤ ticks (callsOf Thread.main w) + (i + 1 - k) ∧
    (i + 2 ≤ fuel + k → (whileConnected env fuel k w).2 ≠ none) ∧
    (ticks (callsOf Thread.main (whileConnected env fuel k w).1)
        = ticks (callsOf Thread.main w) + (i + 1 - k) →
      (whileConnected env fuel k w).1._networkConnected = false) := by
  intro fuel
  induction fuel with
  | zero =>
    intro k w i hki _
    refine ⟨by simp [whileConnected_zero], fun h => absurd h (by omega), fun h => ?_⟩
    rw [whileConnected_zero] at h
    simp only at h
    omega
  | succ fuel ih =>
    intro k w i hki hn
    rw [whileConnected_succ]
    split
    · by_cases hik : i = k
      · subst hik
        obtain ⟨h1, h2, h3⟩ := whileConnected_of_disconnected env fuel (i + 1) (tickWorld env i w)
          (tickWorld_of_notified env i w hn)
        refine ⟨?_, fun h => h2 (by omega), fun _ => h3⟩
        rw [h1, tickWorld_callsOf, ticks_append, ticks_tickEvents]
        omega
      · obtain ⟨h1, h2, h3⟩ := ih (k + 1) (tickWorld env k w) i (by omega) hn
        rw [tickWorld_callsOf, ticks_append, ticks_tickEvents] at h1 h3
        refine ⟨by omega, fun h => h2 (by omega), fun h => h3 (by omega)⟩
    · refine ⟨?_, by simp, fun h => ?_⟩
      · simp [ticks_append, ticks, Event.isTick]
      · simp only [pollWorld_callsOf, ticks_append] at h
        simp only [ticks, Event.isTick, List.countP_cons, List.countP_nil] at h
        simp at h
        omega

theorem whileConnected_quiet (env : Env) (hq : ∀ s, env.disconnects s = []) :
    ∀ (n k : Nat) (w : World), (∀ i, i < n → env.stateAtPoll (k + i) ≠ eOTA_AgentState_Stopped) →
    w._networkConnected = true →
    whileConnected env n k w = ((whileConnected env n k w).1, none) ∧
    callsOf Thread.main (whileConnected env n k w).1 = callsOf Thread.main w ++ ticksFrom env k n := by
  intro n
  induction n with
  | zero => intro k w _ _; simp [whileConnected_zero, ticksFrom]
  | succ n ih =>
    intro k w hs hw
    have hp : (pollWorld env k w)._networkConnected = true := by simp [pollWorld, hq, hw]
    have ht : (tickWorld env k w)._networkConnected = true := by simp [tickWorld, hq, hp]
    have h0 : env.stateAtPoll k ≠ eOTA_AgentState_Stopped := by simpa using hs 0 (by omega)
    rw [whileConnected_succ]
    simp only [h0, hp, ne_eq, not_false_eq_true, and_self, if_true]
    obtain ⟨h1, h2⟩ := ih (k + 1) (tickWorld env k w)
      (fun i hi => by have := hs (i + 1) (by omega); rwa [show k + (i + 1) = k + 1 + i by omega] at this)
      ht
    refine ⟨h1, ?_⟩
    rw [h2]; simp [ticksFrom]

/-! ## Waiting loop and the part after the supervisory loop -/

theorem awaitSuspended_zero (env : Env) (j : Nat) (w : World) :
    awaitSuspended env 0 j w = { world := w, status := Status.running Loop.awaitSuspended } := rfl

theorem awaitSuspended_succ (env : Env) (fuel j : Nat) (w : World) :
    awaitSuspended env (fuel + 1) j w =
      if env.stateAtWait j ≠ eOTA_AgentState_Suspended
      then awaitSuspended env fuel (j + 1) (waitWorld env j w)
      else { world := emit Thread.main (OTA_GetAgentState (env.stateAtWait j)) w,
             status := Status.returned } := rfl

@[simp] theorem waitWorld_callsOf (env : Env) (j : Nat) (w : World) :
    callsOf Thread.main (waitWorld env j w)
      = callsOf Thread.main w ++ [OTA_GetAgentState (env.stateAtWait j), sleep_for 1] := by
  simp [waitWorld]

@[simp] theorem waitWorld_connection (env : Env) (j : Nat) (w : World) :
    (waitWorld env j w).connection = w.connection := by
  simp [waitWorld]

theorem waitWorld_of_disconnected (env : Env) (j : Nat) (w : World)
    (h : w._networkConnected = false) : (waitWorld env j w)._networkConnected = false :=
  deliver_of_disconnected _ _ h

theorem awaitSuspended_trace (env : Env) : ∀ (fuel j : Nat) (w : World), ∃ m, m ≤ fuel ∧
    (∀ i, i < m → env.stateAtWait (j + i) ≠ eOTA_AgentState_Suspended) ∧
    callsOf Thread.main (awaitSuspended env fuel j w).world
      = callsOf Thread.main w ++ waitRounds env j m
        ++ (if (awaitSuspended env fuel j w).status = Status.returned
            then [OTA_GetAgentState eOTA_AgentState_Suspended] else []) ∧
    ((awaitSuspended env fuel j w).status = Status.returned
        ∧ env.stateAtWait (j + m) = eOTA_AgentState_Suspended ∧ m < fuel
      ∨ (awaitSuspended env fuel j w).status = Status.running Loop.awaitSuspended ∧ m = fuel) ∧
    (awaitSuspended env fuel j w).world.connection = w.connection ∧
    (w._networkConnected = false → (awaitSuspended env fuel j w).world._networkConnected = false) := by
  intro fuel
  induction fuel with
  | zero =>
    intro j w
    exact ⟨0, le_refl _, fun i hi => absurd hi (by omega),
      by simp [awaitSuspended_zero, waitRounds], Or.inr ⟨rfl, rfl⟩, rfl, fun h => h⟩
  | succ fuel ih =>
    intro j w
    rw [awaitSuspended_succ]
    split
    · next hc =>
      obtain ⟨m, hm, hne, htr, hst, hconn, hflag⟩ := ih (j + 1) (waitWorld env j w)
      refine ⟨m + 1, by omega, ?_, ?_, ?_, ?_, ?_⟩
      · intro i hi
        cases i with
        | zero => simpa using hc
        | succ i =>
          have := hne i (by omega)
          rwa [show j + 1 + i = j + (i + 1) by omega] at this
      · rw [htr]; simp [waitRounds]
      · rcases hst with ⟨h1, h2, h3⟩ | ⟨h1, h2⟩
        · left
          refine ⟨h1, ?_, by omega⟩
          rwa [show j + 1 + m = j + (m + 1) by omega] at h2
        · right
          exact ⟨h1, by omega⟩
      · rw [hconn]; simp
      · intro h
        exact hflag (waitWorld_of_disconnected env j w h)
    · next hc =>
      have hs : env.stateAtWait j = eOTA_AgentState_Suspended := by simpa using hc
      refine ⟨0, by omega, fun i hi => absurd hi (by omega), ?_, ?_, by simp, fun h => by simpa using h⟩
      · simp [waitRounds, hs]
      · left
        exact ⟨rfl, by simpa using hs, by omega⟩

theorem exitPhase_networkConnected (env : Env) (fuel : Nat) (w : World) :
    (exitPhase env fuel w).world._networkConnected
      = (deliver (env.disconnects Site.exit) w)._networkConnected := by
  unfold exitPhase
  by_cases h : (deliver (env.disconnects Site.exit) w)._networkConnected = false
  · by_cases hr : env.suspendRet = kOTA_Err_None
    · simp only [h, hr, if_true]
      obtain ⟨m, -, -, -, -, -, hflag⟩ := awaitSuspended_trace env fuel 0
        (emit Thread.main (OTA_Suspend kOTA_Err_None) (deliver (env.disconnects Site.exit) w))
      exact hflag (by simpa using h)
    · simp [h, hr]
  · by_cases hc : w.connection = NULL <;> simp [h, hc]

theorem exitPhase_of_disconnected (env : Env) (fuel : Nat) (w : World)
    (h : (deliver (env.disconnects Site.exit) w)._networkConnected = false) :
    exitPhase env fuel w =
      if env.suspendRet = kOTA_Err_None then
        awaitSuspended env fuel 0
          (emit Thread.main (OTA_Suspend env.suspendRet) (deliver (env.disconnects Site.exit) w))
      else
        { world := emit Thread.main (OTA_Suspend env.suspendRet)
            (deliver (env.disconnects Site.exit) w),
          status := Status.returned } := by
  unfold exitPhase
  simp [h]

theorem exitPhase_of_connected (env : Env) (fuel : Nat) (w : World)
    (h : (deliver (env.disconnects Site.exit) w)._networkConnected = true) :
    exitPhase env fuel w =
      { world := if w.connection ≠ NULL then
            emit Thread.main (IotMqtt_Disconnect w.connection 0)
              (deliver (env.disconnects Site.exit) w)
          else deliver (env.disconnects Site.exit) w,
        status := Status.returned } := by
  unfold exitPhase
  simp [h]

theorem exitPhase_status (env : Env) (fuel : Nat) (w : World) :
    (exitPhase env fuel w).status ≠ Status.running Loop.supervisory := by
  by_cases h : (deliver (env.disconnects Site.exit) w)._networkConnected = false
  · rw [exitPhase_of_disconnected env fuel w h]
    split
    · obtain ⟨m, -, -, -, hst, -⟩ := awaitSuspended_trace env fuel 0
        (emit Thread.main (OTA_Suspend env.suspendRet) (deliver (env.disconnects Site.exit) w))
      rcases hst with ⟨h1, -⟩ | ⟨h1, -⟩ <;> rw [h1] <;> decide
    · simp
  · rw [exitPhase_of_connected env fuel w (by simpa using h)]
    simp

/-- The events the coordinator adds after the supervisory loop when the flag
reads false there: the `OTA_Suspend` call, then `m` rounds of waiting and, when
the function has returned, the final state query that answered `Suspended`. -/
theorem exitPhase_trace_of_disconnected (env : Env) (fuel : Nat) (w : World)
    (h : (deliver (env.disconnects Site.exit) w)._networkConnected = false) :
    ∃ m, m ≤ fuel ∧ (∀ i, i < m → env.stateAtWait i ≠ eOTA_AgentState_Suspended) ∧
      callsOf Thread.main (exitPhase env fuel w).world
        = callsOf Thread.main w ++ [OTA_Suspend env.suspendRet]
          ++ (if env.suspendRet = kOTA_Err_None then
                waitRounds env 0 m
                  ++ (if (exitPhase env fuel w).status = Status.returned
                      then [OTA_GetAgentState eOTA_AgentState_Suspended] else [])
              else []) ∧
      (env.suspendRet ≠ kOTA_Err_None ∧ (exitPhase env fuel w).status = Status.returned
        ∨ env.suspendRet = kOTA_Err_None ∧
          ((exitPhase env fuel w).status = Status.returned
              ∧ env.stateAtWait m = eOTA_AgentState_Suspended ∧ m < fuel
            ∨ (exitPhase env fuel w).status = Status.running Loop.awaitSuspended ∧ m = fuel)) ∧
      (exitPhase env fuel w).world.connection = w.connection := by
  rw [exitPhase_of_disconnected env fuel w h]
  by_cases hr : env.suspendRet = kOTA_Err_None
  · simp only [hr, if_true]
    obtain ⟨m, hm, hne, htr, hst, hconn, -⟩ := awaitSuspended_trace env fuel 0
      (emit Thread.main (OTA_Suspend kOTA_Err_None) (deliver (env.disconnects Site.exit) w))
    refine ⟨m, hm, fun i hi => by simpa using hne i hi, ?_, Or.inr ⟨trivial, ?_⟩, ?_⟩
    · rw [htr]; simp
    · simpa using hst
    · rw [hconn]; simp
  · refine ⟨0, by omega, fun i hi => absurd hi (by omega), ?_, Or.inl ⟨hr, ?_⟩, ?_⟩ <;> simp [hr]

/-! ## The whole invocation -/

theorem run_cases (cfg : Config) (env : Env) (a b c fuel : Nat) (conn : IotMqttConnection_t)
    (flag : Bool) :
    (∃ w₂, whileConnected env fuel 0 (entryWorld cfg env b c (World.boot conn flag)) = (w₂, none) ∧
        run_ota_update_demo cfg env a b c fuel (World.boot conn flag)
          = { world := w₂, status := Status.running Loop.supervisory } ∧
        callsOf Thread.main w₂ = entryEvents cfg env ⟨c, b, conn⟩ ++ ticksFrom env 0 fuel)
    ∨ (∃ w₂ n, n < fuel ∧
        (whileConnected env fuel 0 (entryWorld cfg env b c (World.boot conn flag))).1 = w₂ ∧
        (whileConnected env fuel 0 (entryWorld cfg env b c (World.boot conn flag))).2 ≠ none ∧
        (∀ fuel', fuel ≤ fuel' →
          run_ota_update_demo cfg env a b c fuel' (World.boot conn flag) = exitPhase env fuel' w₂) ∧
        callsOf Thread.main w₂ = entryEvents cfg env ⟨c, b, conn⟩ ++ ticksFrom env 0 n
          ++ [OTA_GetAgentState (env.stateAtPoll n)] ∧
        w₂.connection = conn ∧
        (env.stateAtPoll n = eOTA_AgentState_Stopped ∨ w₂._networkConnected = false)) := by
  obtain ⟨n, hn, htr, hconn, hnone, hsome⟩ :=
    whileConnected_trace env fuel 0 (entryWorld cfg env b c (World.boot conn flag))
  rw [entryWorld_callsOf] at htr
  simp only [callsOf_boot, List.nil_append, boot_connection] at htr
  cases hex : (whileConnected env fuel 0 (entryWorld cfg env b c (World.boot conn flag))).2 with
  | none =>
    left
    refine ⟨(whileConnected env fuel 0 (entryWorld cfg env b c (World.boot conn flag))).1, ?_, ?_, ?_⟩
    · rw [← hex]
    · rw [run_ota_update_demo_eq]
      generalize whileConnected env fuel 0 (entryWorld cfg env b c (World.boot conn flag)) = x at hex
      obtain ⟨x1, x2⟩ := x
      simp only at hex
      subst hex
      rfl
    · rw [htr, hex, hnone hex]; simp [exitEvents]
  | some s =>
    right
    obtain ⟨hs, hlt, hor⟩ := hsome s hex
    simp only [Nat.zero_add] at hs
    refine ⟨(whileConnected env fuel 0 (entryWorld cfg env b c (World.boot conn flag))).1, n, hlt,
      rfl, by simp [hex], ?_, ?_, ?_, ?_⟩
    · intro fuel' hle
      rw [run_ota_update_demo_eq, whileConnected_stable env fuel fuel' 0 _ s hex hle]
      generalize whileConnected env fuel 0 (entryWorld cfg env b c (World.boot conn flag)) = x at hex
      obtain ⟨x1, x2⟩ := x
      simp only at hex
      subst hex
      rfl
    · rw [htr, hex, hs]; simp [exitEvents]
    · rw [hconn]; simp
    · rw [← hs]; exact hor

theorem run_shape (cfg : Config) (env : Env) (a b c fuel : Nat) (conn : IotMqttConnection_t)
    (flag : Bool) :
    ∃ n rest, n ≤ fuel ∧
      callsOf Thread.main (run_ota_update_demo cfg env a b c fuel (World.boot conn flag)).world
        = entryEvents cfg env ⟨c, b, conn⟩ ++ ticksFrom env 0 n ++ rest ∧
      ((run_ota_update_demo cfg env a b c fuel (World.boot conn flag)).status
            = Status.running Loop.supervisory ∧ rest = []
        ∨ (run_ota_update_demo cfg env a b c fuel (World.boot conn flag)).status
            ≠ Status.running Loop.supervisory ∧
          (run_ota_update_demo cfg env a b c fuel (World.boot conn flag)).world._networkConnected
            = false ∧
          (∃ m, rest = [OTA_GetAgentState (env.stateAtPoll n), OTA_Suspend env.suspendRet]
            ++ (if env.suspendRet = kOTA_Err_None then
                  waitRounds env 0 m
                    ++ (if (run_ota_update_demo cfg env a b c fuel (World.boot conn flag)).status
                          = Status.returned
                        then [OTA_GetAgentState eOTA_AgentState_Suspended] else [])
                else []))
        ∨ (run_ota_update_demo cfg env a b c fuel (World.boot conn flag)).status = Status.returned ∧
          (run_ota_update_demo cfg env a b c fuel (World.boot conn flag)).world._networkConnected
            = true ∧
          env.stateAtPoll n = eOTA_AgentState_Stopped ∧
          rest = [OTA_GetAgentState eOTA_AgentState_Stopped]
            ++ (if conn ≠ NULL then [IotMqtt_Disconnect conn 0] else [])) := by
  rcases run_cases cfg env a b c fuel conn flag with ⟨w₂, -, hrun, htr⟩ | ⟨w₂, n, hlt, -, -, hrun, htr, hconn, hor⟩
  · refine ⟨fuel, [], le_refl _, ?_, Or.inl ⟨?_, rfl⟩⟩
    · rw [hrun]; simp [htr]
    · rw [hrun]
  · rw [hrun fuel (le_refl _)]
    by_cases hf : (deliver (env.disconnects Site.exit) w₂)._networkConnected = false
    · obtain ⟨m, -, -, htr2, -, -⟩ := exitPhase_trace_of_disconnected env fuel w₂ hf
      refine ⟨n, _, by omega, ?_, Or.inr (Or.inl ⟨exitPhase_status env fuel w₂, ?_, m, rfl⟩)⟩
      · rw [htr2, htr]; simp
      · rw [exitPhase_networkConnected]; exact hf
    · have hf' : (deliver (env.disconnects Site.exit) w₂)._networkConnected = true := by
        simpa using hf
      have hw : w₂._networkConnected = true := deliver_connected hf'
      have hs : env.stateAtPoll n = eOTA_AgentState_Stopped := by
        rcases hor with h | h
        · exact h
        · rw [hw] at h; exact absurd h (by decide)
      refine ⟨n, _, by omega, ?_, Or.inr (Or.inr ⟨?_, ?_, hs, rfl⟩)⟩
      · rw [exitPhase_of_connected env fuel w₂ hf']
        by_cases hc : conn = NULL <;> simp [hconn, hc, htr, hs]
      · rw [exitPhase_of_connected env fuel w₂ hf']
      · rw [exitPhase_networkConnected]; exact hf'

/-! ## Counting events in the loops -/

theorem countP_ticksFrom (env : Env) (p : Event → Bool)
    (h : ∀ k, (tickEvents env k).countP p = 0) (k n : Nat) :
    (ticksFrom env k n).countP p = 0 := by
  induction n generalizing k with
  | zero => rfl
  | succ n ih => rw [ticksFrom, List.countP_append, h, ih]

theorem countP_waitRounds (env : Env) (p : Event → Bool)
    (h : ∀ j, [OTA_GetAgentState (env.stateAtWait j), sleep_for 1].countP p = 0) (j m : Nat) :
    (waitRounds env j m).countP p = 0 := by
  induction m generalizing j with
  | zero => rfl
  | succ m ih => rw [waitRounds, List.countP_append, h, ih]

@[simp] theorem isInit_ticksFrom (env : Env) (k n : Nat) :
    (ticksFrom env k n).countP Event.isInit = 0 :=
  countP_ticksFrom env _ (fun k => by simp [tickEvents, Event.isInit, List.countP_cons]) k n

@[simp] theorem isResume_ticksFrom (env : Env) (k n : Nat) :
    (ticksFrom env k n).countP Event.isResume = 0 :=
  countP_ticksFrom env _ (fun k => by simp [tickEvents, Event.isResume, List.countP_cons]) k n

@[simp] theorem isSuspend_ticksFrom (env : Env) (k n : Nat) :
    (ticksFrom env k n).countP Event.isSuspend = 0 :=
  countP_ticksFrom env _ (fun k => by simp [tickEvents, Event.isSuspend, List.countP_cons]) k n

@[simp] theorem isDisconnect_ticksFrom (env : Env) (k n : Nat) :
    (ticksFrom env k n).countP Event.isDisconnect = 0 :=
  countP_ticksFrom env _ (fun k => by simp [tickEvents, Event.isDisconnect, List.countP_cons]) k n

@[simp] theorem isInit_waitRounds (env : Env) (j m : Nat) :
    (waitRounds env j m).countP Event.isInit = 0 :=
  countP_waitRounds env _ (fun j => by simp [Event.isInit, List.countP_cons]) j m

@[simp] theorem isResume_waitRounds (env : Env) (j m : Nat) :
    (waitRounds env j m).countP Event.isResume = 0 :=
  countP_waitRounds env _ (fun j => by simp [Event.isResume, List.countP_cons]) j m

@[simp] theorem isSuspend_waitRounds (env : Env) (j m : Nat) :
    (waitRounds env j m).countP Event.isSuspend = 0 :=
  countP_waitRounds env _ (fun j => by simp [Event.isSuspend, List.countP_cons]) j m

@[simp] theorem isDisconnect_waitRounds (env : Env) (j m : Nat) :
    (waitRounds env j m).countP Event.isDisconnect = 0 :=
  countP_waitRounds env _ (fun j => by simp [Event.isDisconnect, List.countP_cons]) j m

@[simp] theorem isTick_waitRounds (env : Env) (j m : Nat) :
    (waitRounds env j m).countP Event.isTick = 0 :=
  countP_waitRounds env _ (fun j => by simp [Event.isTick, List.countP_cons]) j m

theorem infoLines_append (l₁ l₂ : List Event) :
    infoLines (l₁ ++ l₂) = infoLines l₁ ++ infoLines l₂ := by
  simp [infoLines, List.filterMap_append]

theorem infoLines_ticksFrom (env : Env) (k n : Nat) :
    infoLines (ticksFrom env k n) = (List.range' k n).map (tickLine env) := by
  induction n generalizing k with
  | zero => rfl
  | succ n ih =>
    rw [ticksFrom, infoLines_append, ih]
    simp [infoLines, tickEvents, List.range']

theorem infoLines_waitRounds (env : Env) (j m : Nat) : infoLines (waitRounds env j m) = [] := by
  induction m generalizing j with
  | zero => rfl
  | succ m ih =>
    rw [waitRounds, infoLines_append, ih]
    simp [infoLines]

theorem infoLines_entryEvents (cfg : Config) (env : Env) (ctx : OTA_ConnectionContext_t) :
    infoLines (entryEvents cfg env ctx) = [] := by
  by_cases h : env.stateAtEntry = eOTA_AgentState_Suspended <;> simp [infoLines, entryEvents, h]

theorem ticks_entryEvents (cfg : Config) (env : Env) (ctx : OTA_ConnectionContext_t) :
    ticks (entryEvents cfg env ctx) = 0 := by
  by_cases h : env.stateAtEntry = eOTA_AgentState_Suspended <;>
    simp [ticks, entryEvents, h, Event.isTick, List.countP_cons]

theorem infiniteTimeout_eq (bits : Nat) : infiniteTimeout bits = 2 ^ bits - 1 := by
  have h1 : 1 ≤ 2 ^ bits := Nat.one_le_two_pow
  have h2 : (-1 : Int) % (2 : Int) ^ bits = ((2 ^ bits - 1 : Nat) : Int) := by
    have hpos : (0 : Int) < 2 ^ bits := by positivity
    rw [← Int.add_emod_self, Int.emod_eq_of_lt (by omega) (by omega)]
    push_cast [Nat.cast_sub h1]
    ring
  rw [infiniteTimeout, h2, Int.toNat_natCast]

theorem resumes_of_no_resume (last : Option OTA_State_t) (l : List Event)
    (h : l.countP Event.isResume = 0) : resumesWhileNotSuspended last l = false := by
  induction l generalizing last with
  | nil => rfl
  | cons e l ih =>
    cases e <;>
      simp_all [resumesWhileNotSuspended, List.countP_cons, Event.isResume]

theorem resumes_entryEvents (cfg : Config) (env : Env) (ctx : OTA_ConnectionContext_t)
    (l : List Event) (h : l.countP Event.isResume = 0) :
    resumesWhileNotSuspended none (entryEvents cfg env ctx ++ l) = false := by
  by_cases hs : env.stateAtEntry = eOTA_AgentState_Suspended <;>
    simp [entryEvents, hs, resumesWhileNotSuspended, resumes_of_no_resume _ l h]

theorem lastObserved_append (last : Option OTA_State_t) (l₁ l₂ : List Event) :
    lastObserved last (l₁ ++ l₂) = lastObserved (lastObserved last l₁) l₂ := by
  induction l₁ generalizing last with
  | nil => rfl
  | cons e l ih => cases e <;> simp [lastObserved, ih]

theorem afterSuspend_append (pre post : List Event) (r : OTA_Err_t)
    (h : pre.countP Event.isSuspend = 0) :
    afterSuspend (pre ++ OTA_Suspend r :: post) = post := by
  induction pre with
  | nil => simp [afterSuspend, List.dropWhile, Event.isSuspend]
  | cons e l ih =>
    cases e <;>
      simp_all [afterSuspend, List.dropWhile, List.countP_cons, Event.isSuspend]

theorem isSuspend_entryEvents (cfg : Config) (env : Env) (ctx : OTA_ConnectionContext_t) :
    (entryEvents cfg env ctx).countP Event.isSuspend = 0 := by
  by_cases h : env.stateAtEntry = eOTA_AgentState_Suspended <;>
    simp [entryEvents, h, Event.isSuspend, List.countP_cons]

theorem isDisconnect_entryEvents (cfg : Config) (env : Env) (ctx : OTA_ConnectionContext_t) :
    (entryEvents cfg env ctx).countP Event.isDisconnect = 0 := by
  by_cases h : env.stateAtEntry = eOTA_AgentState_Suspended <;>
    simp [entryEvents, h, Event.isDisconnect, List.countP_cons]

theorem isInit_entryEvents (cfg : Config) (env : Env) (ctx : OTA_ConnectionContext_t) :
    (entryEvents cfg env ctx).countP Event.isInit = 1 := by
  by_cases h : env.stateAtEntry = eOTA_AgentState_Suspended <;>
    simp [entryEvents, h, Event.isInit, List.countP_cons]

theorem isResume_entryEvents (cfg : Config) (env : Env) (ctx : OTA_ConnectionContext_t) :
    (entryEvents cfg env ctx).countP Event.isResume
      = if env.stateAtEntry = eOTA_AgentState_Suspended then 1 else 0 := by
  by_cases h : env.stateAtEntry = eOTA_AgentState_Suspended <;>
    simp [entryEvents, h, Event.isResume, List.countP_cons]

theorem run_counts (cfg : Config) (env : Env) (a b c fuel : Nat) (conn : IotMqttConnection_t)
    (flag : Bool) :
    (callsOf Thread.main (run_ota_update_demo cfg env a b c fuel (World.boot conn flag)).world).countP
        Event.isInit = 1 ∧
    (callsOf Thread.main (run_ota_update_demo cfg env a b c fuel (World.boot conn flag)).world).countP
        Event.isResume = (if env.stateAtEntry = eOTA_AgentState_Suspended then 1 else 0) ∧
    (callsOf Thread.main (run_ota_update_demo cfg env a b c fuel (World.boot conn flag)).world).countP
        Event.isSuspend
      = (if (run_ota_update_demo cfg env a b c fuel (World.boot conn flag)).status
              ≠ Status.running Loop.supervisory ∧
            (run_ota_update_demo cfg env a b c fuel (World.boot conn flag)).world._networkConnected
              = false then 1 else 0) ∧
    (callsOf Thread.main (run_ota_update_demo cfg env a b c fuel (World.boot conn flag)).world).countP
        Event.isDisconnect
      = (if (run_ota_update_demo cfg env a b c fuel (World.boot conn flag)).status
              ≠ Status.running Loop.supervisory ∧
            (run_ota_update_demo cfg env a b c fuel (World.boot conn flag)).world._networkConnected
              = true ∧ conn ≠ NULL then 1 else 0) := by
  obtain ⟨n, rest, -, htr, h⟩ := run_shape cfg env a b c fuel conn flag
  rw [htr]
  simp only [List.countP_append, isInit_entryEvents, isResume_entryEvents, isSuspend_entryEvents,
    isDisconnect_entryEvents, isInit_ticksFrom, isResume_ticksFrom, isSuspend_ticksFrom,
    isDisconnect_ticksFrom]
  rcases h with ⟨hst, rfl⟩ | ⟨hst, hfl, m, rfl⟩ | ⟨hst, hfl, -, rfl⟩
  · simp [hst]
  · by_cases hr : env.suspendRet = kOTA_Err_None <;>
      by_cases hret : (run_ota_update_demo cfg env a b c fuel (World.boot conn flag)).status
        = Status.returned <;>
      simp [hst, hfl, hr, hret, List.countP_cons, List.countP_append, Event.isInit, Event.isResume,
        Event.isSuspend, Event.isDisconnect]
  · by_cases hc : conn = NULL
    · subst hc
      simp [hst, hfl, List.countP_cons, Event.isInit, Event.isResume,
        Event.isSuspend, Event.isDisconnect]
    · simp [hst, hfl, hc, List.countP_cons, Event.isInit, Event.isResume,
        Event.isSuspend, Event.isDisconnect]

/-! ## Claims about `run_ota_update_demo` -/

/-- C4: in every invocation of `run_ota_update_demo` (whatever the entry state,
the globals and the fuel) `OTA_AgentInit` is called exactly once, with the
connection context, the client identifier, the handler
`App_OTACompleteCallback` and the all-ones timeout `2 ^ bits - 1`; when the
first state query answers `Suspended`, `OTA_Resume` is called exactly once in
the whole invocation, on the same context, and the invocation starts with the
state query, then `OTA_Resume`, then `OTA_AgentInit`. -/
theorem init_once_after_resume (cfg : Config) (env : Env) (a b c fuel : Nat)
    (conn : IotMqttConnection_t) (flag : Bool) :
    (callsOf Thread.main (run_ota_update_demo cfg env a b c fuel (World.boot conn flag)).world).countP
        Event.isInit = 1 ∧
    OTA_AgentInit ⟨c, b, conn⟩ cfg.MBED_CONF_APP_AWS_CLIENT_IDENTIFIER
        FnPtr.App_OTACompleteCallback (2 ^ cfg.tickTypeBits - 1)
      ∈ callsOf Thread.main (run_ota_update_demo cfg env a b c fuel (World.boot conn flag)).world ∧
    (env.stateAtEntry = eOTA_AgentState_Suspended →
      (callsOf Thread.main
          (run_ota_update_demo cfg env a b c fuel (World.boot conn flag)).world).countP
        Event.isResume = 1 ∧
      ∃ rest,
        callsOf Thread.main (run_ota_update_demo cfg env a b c fuel (World.boot conn flag)).world
          = [OTA_GetAgentState eOTA_AgentState_Suspended,
             OTA_Resume ⟨c, b, conn⟩,
             OTA_AgentInit ⟨c, b, conn⟩ cfg.MBED_CONF_APP_AWS_CLIENT_IDENTIFIER
               FnPtr.App_OTACompleteCallback (2 ^ cfg.tickTypeBits - 1)] ++ rest) := by
  obtain ⟨hinit, hresume, -, -⟩ := run_counts cfg env a b c fuel conn flag
  obtain ⟨n, rest, -, htr, -⟩ := run_shape cfg env a b c fuel conn flag
  refine ⟨hinit, ?_, fun hs => ⟨by rw [hresume]; simp [hs], ticksFrom env 0 n ++ rest, ?_⟩⟩
  · rw [htr]
    simp [entryEvents, infiniteTimeout_eq]
  · rw [htr]
    simp [entryEvents, hs, infiniteTimeout_eq]

/-- C4 (witness): with the agent `Suspended` on entry the coordinator calls
`OTA_Resume` exactly once. -/
theorem init_once_after_resume_witness :
    envSuspended.stateAtEntry = eOTA_AgentState_Suspended ∧
    (callsOf Thread.main (run_ota_update_demo cfgDemo envSuspended 0 1 2 4
        (World.boot 7 true)).world).countP Event.isResume = 1 :=
  ⟨rfl, ((init_once_after_resume cfgDemo envSuspended 0 1 2 4 7 true).2.2 rfl).1⟩

theorem exitPhase_ticks (env : Env) (fuel : Nat) (w : World) :
    ticks (callsOf Thread.main (exitPhase env fuel w).world) = ticks (callsOf Thread.main w) := by
  by_cases hf : (deliver (env.disconnects Site.exit) w)._networkConnected = false
  · obtain ⟨m, -, -, htr, -, -⟩ := exitPhase_trace_of_disconnected env fuel w hf
    rw [htr]
    by_cases hr : env.suspendRet = kOTA_Err_None <;>
      by_cases hret : (exitPhase env fuel w).status = Status.returned <;>
      simp [ticks, hr, hret, List.countP_append, List.countP_cons, Event.isTick]
  · rw [exitPhase_of_connected env fuel w (by simpa using hf)]
    by_cases hc : w.connection = NULL <;>
      simp [ticks, hc, List.countP_append, List.countP_cons, Event.isTick]

theorem run_ticks (cfg : Config) (env : Env) (a b c fuel : Nat) (conn : IotMqttConnection_t)
    (flag : Bool) :
    ticks (callsOf Thread.main (run_ota_update_demo cfg env a b c fuel (World.boot conn flag)).world)
      = ticks (callsOf Thread.main
          (whileConnected env fuel 0 (entryWorld cfg env b c (World.boot conn flag))).1) := by
  rcases run_cases cfg env a b c fuel conn flag with
    ⟨w₂, hw, hrun, -⟩ | ⟨w₂, n, -, hw, -, hrun, -, -, -⟩
  · rw [hrun, hw]
  · rw [hrun fuel (le_refl _), exitPhase_ticks, hw]

theorem ticksFrom_succ_last (env : Env) (k n : Nat) :
    ticksFrom env k (n + 1) = ticksFrom env k n ++ tickEvents env (k + n) := by
  induction n generalizing k with
  | zero => simp [ticksFrom]
  | succ n ih =>
    rw [ticksFrom, ih (k + 1), ticksFrom, List.append_assoc,
      show k + 1 + n = k + (n + 1) by omega]

theorem filter_of_countP_zero (p : Event → Bool) (l : List Event) (h : l.countP p = 0) :
    l.filter p = [] := by
  rw [List.countP_eq_length_filter] at h
  exact List.length_eq_zero.mp h

theorem entryWorld_networkConnected (cfg : Config) (env : Env) (b c : Nat) (w : World) :
    (entryWorld cfg env b c w)._networkConnected
      = (deliver (env.disconnects Site.entry) w)._networkConnected := by
  by_cases h : env.stateAtEntry = eOTA_AgentState_Suspended <;> simp [entryWorld, h]

/-- C10 (counterexample): a run of two ticks emits telemetry lines with three
blanks before `Queued:`, `Processed:` and `Dropped:` and a trailing `\r\n`,
which are not the lines of the shape given in the specification, with or
without a line end appended to that shape. -/
theorem telemetry_not_spec_shape :
    infoLines (callsOf Thread.main (run_ota_update_demo cfgDemo envStopped 0 1 2 5
        (World.boot 7 true)).world)
      = ["State: Init  Received: 1   Queued: 2   Processed: 3   Dropped: 4\r\n",
         "State: Init  Received: 2   Queued: 2   Processed: 3   Dropped: 4\r\n"] ∧
    infoLines (callsOf Thread.main (run_ota_update_demo cfgDemo envStopped 0 1 2 5
        (World.boot 7 true)).world)
      ≠ [specTelemetryLine "Init" 1 2 3 4, specTelemetryLine "Init" 2 2 3 4] ∧
    infoLines (callsOf Thread.main (run_ota_update_demo cfgDemo envStopped 0 1 2 5
        (World.boot 7 true)).world)
      ≠ [specTelemetryLine "Init" 1 2 3 4 ++ "\r\n", specTelemetryLine "Init" 2 2 3 4 ++ "\r\n"] := by
  decide

/-- C10 (as amended): in every run of `run_ota_update_demo` the informational
lines logged by the coordinator are exactly the telemetry lines of the ticks
executed, one per tick and in order; the line of tick `k` is
`State: <name>  Received: <n>   Queued: <n>   Processed: <n>   Dropped: <n>\r\n`
(two blanks after the name, three before the other labels, `\r\n` at the end)
with the name of the state returned by the state query that started the tick
and the four counters read in that tick; the name table has 11 entries,
`Init` .. `Stopped`, and the lookup is in bounds for each agent state; and when
the flag is true, no notification arrives and the first `n` state queries of
the loop are not `Stopped`, a run with fuel for `n` ticks executes at least
`n` ticks. -/
theorem telemetry_lines (cfg : Config) (env : Env) (a b c fuel : Nat)
    (conn : IotMqttConnection_t) (flag : Bool) :
    infoLines (callsOf Thread.main
        (run_ota_update_demo cfg env a b c fuel (World.boot conn flag)).world)
      = (List.range (ticks (callsOf Thread.main
          (run_ota_update_demo cfg env a b c fuel (World.boot conn flag)).world))).map
          (tickLine env) ∧
    (∀ k, tickLine env k = "State: " ++ stateStr (env.stateAtPoll k)
        ++ "  Received: " ++ toString (env.received k)
        ++ "   Queued: " ++ toString (env.queued k)
        ++ "   Processed: " ++ toString (env.processed k)
        ++ "   Dropped: " ++ toString (env.dropped k) ++ "\r\n") ∧
    _pStateStr.length = eOTA_AgentState_All ∧
    (∀ s : OTA_State_t, s.toNat < eOTA_AgentState_All ∧ _pStateStr[s.toNat]? = some (stateStr s)) ∧
    [eOTA_AgentState_Init, eOTA_AgentState_Ready, eOTA_AgentState_RequestingJob,
      eOTA_AgentState_WaitingForJob, eOTA_AgentState_CreatingFile,
      eOTA_AgentState_RequestingFileBlock, eOTA_AgentState_WaitingForFileBlock,
      eOTA_AgentState_ClosingFile, eOTA_AgentState_Suspended, eOTA_AgentState_ShuttingDown,
      eOTA_AgentState_Stopped].map stateStr
      = ["Init", "Ready", "RequestingJob", "WaitingForJob", "CreatingFile", "RequestingFileBlock",
         "WaitingForFileBlock", "ClosingFile", "Suspended", "ShuttingDown", "Stopped"] ∧
    (∀ n, n ≤ fuel → (∀ k, k < n → env.stateAtPoll k ≠ eOTA_AgentState_Stopped) → flag = true →
      (∀ s, env.disconnects s = []) →
      n ≤ ticks (callsOf Thread.main
        (run_ota_update_demo cfg env a b c fuel (World.boot conn flag)).world)) := by
  refine ⟨?_, fun _ => rfl, rfl, fun s => by cases s <;> exact ⟨by decide, rfl⟩, rfl, ?_⟩
  · obtain ⟨n, rest, -, htr, h⟩ := run_shape cfg env a b c fuel conn flag
    have hrest : infoLines rest = [] ∧ ticks rest = 0 := by
      rcases h with ⟨-, rfl⟩ | ⟨-, -, m, rfl⟩ | ⟨-, -, -, rfl⟩
      · exact ⟨rfl, rfl⟩
      · by_cases hr : env.suspendRet = kOTA_Err_None <;>
          by_cases hret : (run_ota_update_demo cfg env a b c fuel (World.boot conn flag)).status
            = Status.returned <;>
          simp only [hr, hret, if_true, if_false, infoLines_append, infoLines_waitRounds,
            ticks_append, not_true_eq_false, not_false_eq_true] <;>
          simp [ticks, infoLines, List.countP_cons, List.countP_append, Event.isTick]
      · by_cases hc : conn = NULL <;>
          simp [hc, infoLines, ticks, List.countP_cons, Event.isTick]
    rw [htr, infoLines_append, infoLines_append, ticks_append, ticks_append, hrest.1, hrest.2,
      infoLines_entryEvents, ticks_entryEvents, infoLines_ticksFrom, ticks_ticksFrom,
      List.range_eq_range']
    simp
  · intro n hn hs hflag hq
    subst hflag
    rw [run_ticks]
    have hw : (entryWorld cfg env b c (World.boot conn true))._networkConnected = true := by
      rw [entryWorld_networkConnected, hq]; rfl
    obtain ⟨-, h2⟩ := whileConnected_quiet env hq n 0
      (entryWorld cfg env b c (World.boot conn true)) (fun i hi => by simpa using hs i hi) hw
    have hm := whileConnected_ticks_mono env n fuel 0
      (entryWorld cfg env b c (World.boot conn true)) hn
    rw [h2, ticks_append, ticks_ticksFrom] at hm
    omega

/-- C10 (witness): with the flag true, no notification and the first two state
queries of the loop answering `Init`, a run with fuel 5 executes at least two
ticks. -/
theorem telemetry_lines_witness :
    2 ≤ ticks (callsOf Thread.main
      (run_ota_update_demo cfgDemo envStopped 0 1 2 5 (World.boot 7 true)).world) :=
  (telemetry_lines cfgDemo envStopped 0 1 2 5 7 true).2.2.2.2.2 2 (by decide)
    (fun k hk => by simp [envStopped, hk]) rfl (fun _ => rfl)

/-- The flag is read again after the loop: when the loop is left on a state
query answering `Stopped` with the flag still true, and a notification arrives
before the test that follows the loop, the flag reads false at that test and
the coordinator calls `OTA_Suspend` and never `IotMqtt_Disconnect`. -/
theorem stopped_then_notified_suspends :
    (whileConnected envStoppedThenDrop 5 0
        (entryWorld cfgDemo envStoppedThenDrop 1 2 (World.boot 7 true))).2
      = some eOTA_AgentState_Stopped ∧
    (whileConnected envStoppedThenDrop 5 0
        (entryWorld cfgDemo envStoppedThenDrop 1 2 (World.boot 7 true))).1._networkConnected
      = true ∧
    flagAtTest cfgDemo envStoppedThenDrop 1 2 5 7 true = false ∧
    apiCalls (callsOf Thread.main (run_ota_update_demo cfgDemo envStoppedThenDrop 0 1 2 5
        (World.boot 7 true)).world)
      = [OTA_GetAgentState eOTA_AgentState_Init,
         OTA_AgentInit ⟨2, 1, 7⟩ "thing" FnPtr.App_OTACompleteCallback 4294967295,
         OTA_GetAgentState eOTA_AgentState_Stopped,
         OTA_Suspend kOTA_Err_None,
         OTA_GetAgentState eOTA_AgentState_Suspended] := by
  decide

theorem afterSuspend_snoc (pre post : List Event) (r : OTA_Err_t)
    (h : pre.countP Event.isSuspend = 0) :
    afterSuspend (pre ++ [OTA_Suspend r] ++ post) = post := by
  rw [List.append_assoc, List.singleton_append]
  exact afterSuspend_append pre post r h

end OtaDemo
